import Mathlib

/-!
Verification of the document ingestion / hybrid retrieval pipeline.

The development shallowly embeds the core of the repository:
`src/index_documents.py` (token accounting, chunking, summarization,
embedding, bulk-batch assembly and submission) and
`src/mcp_opensearch_server.py` (the hybrid has_child query handler).

Modelling conventions:
- machine floats (embedding vectors, scores) are modelled as rationals;
- external network calls (OpenAI completion/embedding, the OpenSearch
  bulk helper, the OpenSearch search call) are passed in as function
  parameters returning `Except String _`, an `Except.error` standing for
  the Python exception the call may raise;
- the tiktoken tokenizer is modelled as an abstract `Encoding` (a pair
  of `encode`/`decode` maps); lawfulness of a concrete encoding
  (`encode` is a left inverse of `decode`) is an explicit hypothesis
  where a theorem needs it;
- generated UUIDs are modelled as explicit id parameters (`parent_doc_id`,
  and one child id per chunk position).
-/

/-- Python whitespace characters stripped by `str.strip()` (ASCII part;
the source never feeds non-ASCII whitespace to `strip`). -/
def isPySpace (c : Char) : Bool :=
  c == ' ' || c == '\t' || c == '\n' || c == '\r' || c == '\x0B' || c == '\x0C'

/-- Embedding of Python `str.strip()`: drop whitespace from both ends. -/
def pyStrip (s : String) : String :=
  String.mk (((s.data.dropWhile isPySpace).reverse.dropWhile isPySpace).reverse)

/-- Embedding of Python `str.lower()` (ASCII case folding; the source only
lowercases the `CHUNK_MODE` configuration string). -/
def pyLower (s : String) : String :=
  String.mk (s.data.map Char.toLower)

/-- Embedding of Python `text.split("\x22\n\n\x22")` on the character list:
leftmost, non-overlapping split on two consecutive newlines
(`"".split` gives `[""]`, i.e. `[[]]`). -/
def splitNN : List Char → List (List Char)
  | [] => [[]]
  | '\n' :: '\n' :: rest => [] :: splitNN rest
  | c :: rest =>
    match splitNN rest with
    | [] => [[c]]
    | h :: t => (c :: h) :: t

/-- Python `text.split("\n\n")` lifted to `String`. -/
def pySplitNN (text : String) : List String :=
  (splitNN text.data).map String.mk

/-! ## Token Accountant (`count_tokens`, `truncate_text`,
`src/index_documents.py` lines 49-63)

`tiktoken.encoding_for_model` returns a model-specific encoder/decoder
pair; it is external library code, modelled as the abstract structure
`Encoding` below. -/

/-- A model-specific tokenization scheme: `encode` maps text to its token
sequence, `decode` maps a token sequence back to text (the model of
`tiktoken.encoding_for_model(model)`). -/
structure Encoding (τ : Type) where
  encode : String → List τ
  decode : List τ → String

/-- `count_tokens(text, model)` — number of tokens in `text`
(`src/index_documents.py` lines 49-53). -/
def count_tokens (enc : Encoding τ) (text : String) : Nat :=
  (enc.encode text).length

/-- `truncate_text(text, max_tokens, model)` — return `text` unchanged if
its token count is at most `max_tokens`, else decode the first
`max_tokens` tokens (`src/index_documents.py` lines 56-63). -/
def truncate_text (enc : Encoding τ) (text : String) (max_tokens : Nat) : String :=
  let tokens := enc.encode text
  if tokens.length ≤ max_tokens then text
  else enc.decode (tokens.take max_tokens)

/-- A concrete lawful encoding: one token per character. Used to witness
theorems whose hypotheses constrain the tokenizer model. -/
def charEncoding : Encoding Char where
  encode s := s.data
  decode l := String.mk l

/-! ## Summarizer (`generate_summary`, `src/index_documents.py` lines 66-88) -/

/-- The literal prompt template of `generate_summary` (line 71). -/
def summary_prompt (text : String) : String :=
  "Summarize the following document:\n\n" ++ text ++ "\n\nSummary:"

/-- `generate_summary(text)`: build the prompt, truncate the whole prompt
to the `CONTEXT_MAX_TOKENS` budget, issue one external completion call
with `SUMMARY_MAX_TOKENS` and temperature 0.5, strip the result; on any
failure of the call, log and return `""`
(`src/index_documents.py` lines 66-88). The external
`openai.Completion.create` call is the parameter `complete`, taking the
prompt, the max output tokens and the temperature. -/
def generate_summary (enc : Encoding τ) (context_max_tokens summary_max_tokens : Nat)
    (complete : String → Nat → ℚ → Except String String) (text : String) : String :=
  let prompt := summary_prompt text
  let prompt := truncate_text enc prompt context_max_tokens
  match complete prompt summary_max_tokens (1/2) with
  | .ok response => pyStrip response
  | .error _ => ""

/-! ## Chunker (`chunk_document`, `src/index_documents.py` lines 91-116) -/

/-- The paragraph-mode loop of `chunk_document` (lines 100-103 and, for the
unknown-mode fallback, lines 112-115): split on `"\n\n"`, strip each
paragraph, append only the non-empty results. -/
def paragraph_chunks (text : String) : List String :=
  (pySplitNN text).foldl
    (fun chunks paragraph =>
      let p := pyStrip paragraph
      if p == "" then chunks else chunks ++ [p])
    []

/-- Modelled from the spec: the semantic-mode splitter. The source (line
107-108) delegates to `RecursiveCharacterTextSplitter(chunk_size,
chunk_overlap)` from the external langchain library, whose code is not in
the repository; §4.2 of the spec describes the strategy as fixed-size
windows with fixed overlap, each window starting `size - overlap`
characters after the previous one, the last window possibly shorter. -/
def windowChunk (size overlap : Nat) (l : List Char) : List (List Char) :=
  let stride := size - overlap
  (List.range ((l.length + stride - 1) / stride)).map
    (fun k => (l.drop (k * stride)).take size)

/-- `chunk_document(text)` with the `CHUNK_MODE` configuration passed
explicitly (`src/index_documents.py` lines 91-116): `"paragraph"` splits
on blank lines; `"semantic"` uses the windowed splitter with window 1000
and overlap 200; any other mode warns and falls back to the paragraph
split. -/
def chunk_document (chunk_mode : String) (text : String) : List String :=
  if pyLower chunk_mode == "paragraph" then
    paragraph_chunks text
  else if pyLower chunk_mode == "semantic" then
    (windowChunk 1000 200 text.data).map String.mk
  else
    paragraph_chunks text

/-! ## Embedder (`get_embedding`, `src/index_documents.py` lines 119-126) -/

/-- `get_embedding(text, embedder)`: return the embedder's vector, or log
and return the empty vector `[]` when the external call raises
(`src/index_documents.py` lines 119-126). -/
def get_embedding (text : String) (embedder : String → Except String (List ℚ)) : List ℚ :=
  match embedder text with
  | .ok embedding => embedding
  | .error _ => []

/-! ## Index Writer
(`index_documents_to_opensearch` / `process_pdf_file`,
`src/index_documents.py` lines 175-253) -/

/-- The `my_join_field` value of a child document:
`{"name": "chunk", "parent": ...}` (line 233, parent filled in at line
250). -/
structure JoinField where
  name : String
  parent : Option String
deriving DecidableEq, Repr

/-- A child chunk document as built in `process_pdf_file` (lines 229-234). -/
structure ChildDoc where
  chunk_id : String
  chunk_text : String
  embedding : List ℚ
  my_join_field : JoinField
deriving DecidableEq, Repr

/-- The parent document as built in `process_pdf_file` (lines 239-246);
its `my_join_field` is the plain string `"document"`. -/
structure ParentDoc where
  doc_id : String
  file_name : String
  file_path : String
  summary : String
  timestamp : String
  my_join_field : String
deriving DecidableEq, Repr

/-- The `_source` of a bulk action: either a parent document or a child
document. -/
inductive ActionSource where
  | parentSrc (p : ParentDoc)
  | childSrc (c : ChildDoc)
deriving DecidableEq, Repr

/-- One entry of the bulk batch assembled by
`index_documents_to_opensearch` (lines 180-197): op type, target index,
document id, source, and the optional routing key (present exactly on
child entries). -/
structure BulkAction where
  op_type : String
  index : String
  id : String
  source : ActionSource
  routing : Option String
deriving DecidableEq, Repr

/-- The batch-assembly part of `index_documents_to_opensearch`
(lines 177-197): one parent action (id = `doc_id`, no routing) followed by
one action per child (id = `chunk_id`, routing = the parent's `doc_id`). -/
def build_actions (index_name : String) (parent_doc : ParentDoc)
    (child_docs : List ChildDoc) : List BulkAction :=
  { op_type := "index", index := index_name, id := parent_doc.doc_id
    source := ActionSource.parentSrc parent_doc, routing := none }
  :: child_docs.map (fun child =>
    { op_type := "index", index := index_name, id := child.chunk_id
      source := ActionSource.childSrc child, routing := some parent_doc.doc_id })

/-- `index_documents_to_opensearch(client, parent_doc, child_docs)`
(lines 175-203): build the batch, submit it through the external bulk
helper (the parameter `bulk`), and catch any exception, only logging it.
The Python function returns `None` on every path — modelled by the
return type `Unit`: neither branch of the `match` distinguishes success
from failure to the caller. -/
def index_documents_to_opensearch (index_name : String)
    (bulk : List BulkAction → Except String Unit)
    (parent_doc : ParentDoc) (child_docs : List ChildDoc) : Unit :=
  match bulk (build_actions index_name parent_doc child_docs) with
  | .ok _ => ()
  | .error _ => ()

/-- The document-construction part of `process_pdf_file`
(`src/index_documents.py` lines 218-250), after the PDF text has been
extracted: summarize, chunk, embed each chunk prefixed with the summary,
build the child documents (join parent initially unset), build the parent
document, then set every child's join-field parent to the minted parent
id. The minted UUIDs are the parameters `parent_doc_id` and `chunk_ids`
(one id per chunk position). Returns the parent and children handed to
`index_documents_to_opensearch` at line 253. -/
def process_pdf_file_docs (enc : Encoding τ)
    (context_max_tokens summary_max_tokens : Nat)
    (complete : String → Nat → ℚ → Except String String)
    (embedder : String → Except String (List ℚ))
    (chunk_mode : String)
    (parent_doc_id : String) (chunk_ids : Nat → String)
    (file_name file_path timestamp : String)
    (full_text : String) : ParentDoc × List ChildDoc :=
  let summary := generate_summary enc context_max_tokens summary_max_tokens complete full_text
  let chunks := chunk_document chunk_mode full_text
  let child_docs := chunks.enum.map (fun ic =>
    { chunk_id := chunk_ids ic.1
      chunk_text := ic.2
      embedding := get_embedding ("Summary: " ++ summary ++ "\n\n" ++ ic.2) embedder
      my_join_field := { name := "chunk", parent := none } : ChildDoc })
  let parent_doc : ParentDoc :=
    { doc_id := parent_doc_id, file_name := file_name, file_path := file_path
      summary := summary, timestamp := timestamp, my_join_field := "document" }
  let child_docs := child_docs.map (fun child =>
    { child with my_join_field := { name := child.my_join_field.name
                                    parent := some parent_doc_id } })
  (parent_doc, child_docs)

/-- `process_pdf_file` after a successful PDF load: construct the parent
and children and submit them (`src/index_documents.py` lines 206-253). -/
def process_pdf_file (enc : Encoding τ)
    (context_max_tokens summary_max_tokens : Nat)
    (complete : String → Nat → ℚ → Except String String)
    (embedder : String → Except String (List ℚ))
    (chunk_mode index_name : String)
    (bulk : List BulkAction → Except String Unit)
    (parent_doc_id : String) (chunk_ids : Nat → String)
    (file_name file_path timestamp : String)
    (full_text : String) : Unit :=
  let docs := process_pdf_file_docs enc context_max_tokens summary_max_tokens
    complete embedder chunk_mode parent_doc_id chunk_ids
    file_name file_path timestamp full_text
  index_documents_to_opensearch index_name bulk docs.1 docs.2

/-! ## Hybrid Query Engine (`handle_query`,
`src/mcp_opensearch_server.py` lines 48-113) -/

/-- The inner `script_score` clause of the query built at lines 72-84:
a `bool`/`should` lexical match of the query text against `chunk_text`,
rescored by the painless script
`cosineSimilarity(params.query_vector, \x27embedding\x27) + 1.0` with the query
vector as its parameter. -/
structure ScriptScoreClause where
  match_field : String
  match_text : String
  script_source : String
  query_vector : List ℚ
deriving DecidableEq, Repr

/-- The whole `has_child` query built at lines 67-89: child type to
search, the script-score clause over the children, and the mode used to
aggregate child scores into the parent's score. -/
structure HasChildQuery where
  child_type : String
  clause : ScriptScoreClause
  score_mode : String
deriving DecidableEq, Repr

/-- The OpenSearch query value `handle_query` constructs from the query
text and the query vector (`src/mcp_opensearch_server.py` lines 67-89). -/
def build_opensearch_query (query_text : String) (query_vector : List ℚ) : HasChildQuery :=
  { child_type := "chunk"
    clause :=
      { match_field := "chunk_text"
        match_text := query_text
        script_source := "cosineSimilarity(params.query_vector, \x27embedding\x27) + 1.0"
        query_vector := query_vector }
    score_mode := "max" }

/-- One hit returned by the search call: the document `_id` and its
`_source` (a parent document, since `has_child` returns parents). -/
structure Hit where
  id : String
  source : ParentDoc
deriving DecidableEq, Repr

/-- A search response: the list of hits, most relevant first. -/
structure SearchResponse where
  hits : List Hit
deriving DecidableEq, Repr

/-- The parent metadata row `handle_query` extracts from each hit
(lines 103-109). -/
structure ParentInfo where
  doc_id : String
  file_name : String
  file_path : String
  summary : String
  timestamp : String
deriving DecidableEq, Repr

/-- An `MCPResponse`: either a result list (line 113) or an error payload
(line 95). -/
inductive MCPResponse where
  | results (rows : List ParentInfo)
  | error (msg : String)
deriving DecidableEq, Repr

/-- `handle_query(request)` (`src/mcp_opensearch_server.py` lines 48-113):
embed the query text (line 60 — NOT inside a `try`, so a failure raises
out of the handler, modelled as `Except.error`), build the `has_child`
query, run the search (its failure IS caught, line 91-95, and returned as
`MCPResponse(error=...)`), and shape each hit to parent metadata. The
external embedding and search calls are the parameters `embed` and
`search`. -/
def handle_query (embed : String → Except String (List ℚ))
    (search : HasChildQuery → Except String SearchResponse)
    (query_text : String) : Except String MCPResponse :=
  match embed query_text with
  | .error e => .error e
  | .ok query_vector =>
    match search (build_opensearch_query query_text query_vector) with
    | .error e => .ok (MCPResponse.error e)
    | .ok response =>
      .ok (MCPResponse.results (response.hits.map (fun hit =>
        { doc_id := hit.id
          file_name := hit.source.file_name
          file_path := hit.source.file_path
          summary := hit.source.summary
          timestamp := hit.source.timestamp })))

/-- Modelled from the spec: the external index service's evaluation of a
`has_child` query with `score_mode: max` (§6(c) of the spec: "restrict-
by-kind, lexical match on a text field, vector-similarity scoring via a
combining function over a stored vector field, a parent/child join
..., and max-aggregation of child scores to parent rank"). The index is
a list of parents, each with its child chunks; `lexMatch` is the lexical
text-match predicate of the search engine and `sim` its vector
similarity (the `cosineSimilarity` painless function); a child's score is
the script value `sim + 1`; a parent scores the maximum over its
lexically matching children and parents with no matching child are
absent. -/
def eval_has_child_max (sim : List ℚ → List ℚ → ℚ)
    (lexMatch : String → String → Bool) (q : HasChildQuery)
    (index : List (ParentDoc × List ChildDoc)) : List (ParentDoc × ℚ) :=
  index.filterMap (fun pc =>
    let scores := (pc.2.filter (fun c => lexMatch q.clause.match_text c.chunk_text)).map
      (fun c => sim q.clause.query_vector c.embedding + 1)
    match scores with
    | [] => none
    | s :: rest => some (pc.1, rest.foldl max s))

/-! ## Example fixtures

A tiny concrete index used to check the spec's worked example for the
hybrid query: one parent whose three children score 0.2, 0.9 and 0.5
under the script (their stored similarities are -0.8, -0.1 and -0.5, and
the script adds 1.0), and one parent whose only child does not match the
lexical query. -/

/-- Example parent with three matching children. -/
def exParent1 : ParentDoc :=
  { doc_id := "p1", file_name := "a.pdf", file_path := "/docs/a.pdf"
    summary := "sum", timestamp := "t0", my_join_field := "document" }

/-- Example parent with no matching child. -/
def exParent2 : ParentDoc :=
  { doc_id := "p2", file_name := "b.pdf", file_path := "/docs/b.pdf"
    summary := "sum2", timestamp := "t1", my_join_field := "document" }

/-- Child of `exParent1` scoring 0.2 (stored similarity -0.8). -/
def exChild1 : ChildDoc :=
  { chunk_id := "c1", chunk_text := "alpha", embedding := [-4/5]
    my_join_field := { name := "chunk", parent := some "p1" } }

/-- Child of `exParent1` scoring 0.9 (stored similarity -0.1). -/
def exChild2 : ChildDoc :=
  { chunk_id := "c2", chunk_text := "beta", embedding := [-1/10]
    my_join_field := { name := "chunk", parent := some "p1" } }

/-- Child of `exParent1` scoring 0.5 (stored similarity -0.5). -/
def exChild3 : ChildDoc :=
  { chunk_id := "c3", chunk_text := "gamma", embedding := [-1/2]
    my_join_field := { name := "chunk", parent := some "p1" } }

/-- Child of `exParent2` that fails the lexical match. -/
def exChild4 : ChildDoc :=
  { chunk_id := "c4", chunk_text := "nomatch", embedding := [1]
    my_join_field := { name := "chunk", parent := some "p2" } }

/-- The head-of-embedding similarity used by the worked example: the
stored one-component vectors carry their own similarity value. -/
def exSim (_query stored : List ℚ) : ℚ := stored.headD 0

/-- The lexical matcher of the worked example: everything matches except
the text `"nomatch"`. -/
def exLex (_query chunk_text : String) : Bool := chunk_text != "nomatch"

/-! ## Helper lemmas -/

/-- The paragraph loop is the strip-then-drop-empties filter of the split
pieces, in order. -/
lemma paragraph_fold_eq (l : List String) (acc : List String) :
    l.foldl
      (fun chunks paragraph =>
        let p := pyStrip paragraph
        if p == "" then chunks else chunks ++ [p])
      acc
    = acc ++ (l.map pyStrip).filter (fun p => p != "") := by
  induction l generalizing acc with
  | nil => simp
  | cons hd tl ih =>
    rw [List.foldl_cons, ih]
    by_cases h : pyStrip hd = ""
    · simp [h]
    · simp [h]

lemma paragraph_chunks_eq (text : String) :
    paragraph_chunks text
      = ((pySplitNN text).map pyStrip).filter (fun p => p != "") := by
  unfold paragraph_chunks
  simpa using paragraph_fold_eq (pySplitNN text) []

/-- The token count of a truncation never exceeds the budget, provided the
encoding decodes token sequences faithfully. -/
lemma count_tokens_truncate_le (enc : Encoding τ)
    (hinv : ∀ l, enc.encode (enc.decode l) = l) (text : String) (n : Nat) :
    count_tokens enc (truncate_text enc text n) ≤ n := by
  unfold count_tokens truncate_text
  by_cases h : (enc.encode text).length ≤ n
  · simp [h]
  · simp [h, hinv]

/-- A left fold of `max` over a list yields one of the folded values. -/
lemma foldl_max_mem {α : Type} [LinearOrder α] (s : α) (l : List α) :
    l.foldl max s ∈ s :: l := by
  induction l generalizing s with
  | nil => simp
  | cons hd tl ih =>
    simp only [List.foldl_cons, List.mem_cons]
    have h := ih (max s hd)
    simp only [List.mem_cons] at h
    rcases h with h | h
    · rcases max_choice s hd with hm | hm
      · left; rw [h, hm]
      · right; left; rw [h, hm]
    · right; right; exact h

/-- A left fold of `max` over a list bounds every folded value. -/
lemma le_foldl_max {α : Type} [LinearOrder α] (s : α) (l : List α) :
    ∀ x ∈ s :: l, x ≤ l.foldl max s := by
  induction l generalizing s with
  | nil => simp
  | cons hd tl ih =>
    intro x hx
    simp only [List.mem_cons] at hx
    simp only [List.foldl_cons]
    rcases hx with rfl | rfl | h
    · exact le_trans (le_max_left x hd) (ih (max x hd) _ (List.mem_cons_self _ _))
    · exact le_trans (le_max_right s x) (ih (max s x) _ (List.mem_cons_self _ _))
    · exact ih (max s hd) x (List.mem_cons_of_mem _ h)

/-- A window index in range of a chunk's start is in range of the window
count `⌈len / stride⌉`. -/
lemma lt_numWindows {stride len k : Nat} (hs : 0 < stride)
    (h : k * stride < len) : k < (len + stride - 1) / stride := by
  have hmul : (k + 1) * stride ≤ len + stride - 1 := by
    rw [Nat.succ_mul]
    omega
  exact Nat.lt_of_succ_le ((Nat.le_div_iff_mul_le hs).2 hmul)

/-! ## Claims -/

/-- Claim C6: for every text, budget `N` and (faithfully decoding) model
encoding, `truncate_text` returns a string of at most `N` tokens, returns
`text` itself unchanged when `text` already has at most `N` tokens, and
otherwise returns the decoded prefix of exactly `N` tokens. -/
theorem truncate_text_spec (τ : Type) (enc : Encoding τ)
    (hinv : ∀ l, enc.encode (enc.decode l) = l) (text : String) (n : Nat) :
    count_tokens enc (truncate_text enc text n) ≤ n
    ∧ (count_tokens enc text ≤ n → truncate_text enc text n = text)
    ∧ (n < count_tokens enc text →
        truncate_text enc text n = enc.decode ((enc.encode text).take n)) := by
  refine ⟨count_tokens_truncate_le enc hinv text n, ?_, ?_⟩
  · intro h
    simp only [truncate_text, count_tokens] at *
    simp [h]
  · intro h
    simp only [truncate_text, count_tokens] at *
    simp [Nat.not_le.2 h]

/-- Witness for C6 at the character encoding, `text = "hello world"`,
`N = 5`. -/
theorem truncate_text_spec_witness :
    count_tokens charEncoding (truncate_text charEncoding "hello world" 5) ≤ 5
    ∧ (count_tokens charEncoding "hello world" ≤ 5 →
        truncate_text charEncoding "hello world" 5 = "hello world")
    ∧ (5 < count_tokens charEncoding "hello world" →
        truncate_text charEncoding "hello world" 5
          = charEncoding.decode ((charEncoding.encode "hello world").take 5)) :=
  truncate_text_spec Char charEncoding (fun _ => rfl) "hello world" 5

/-- Claim C7: paragraph-mode chunking splits on blank-line (`"\n\n"`)
boundaries, strips each piece, drops empty results and preserves order;
`"A\n\nB\n\n\nC"` chunks to exactly `["A", "B", "C"]`, and the empty
string chunks to `[]` rather than erroring. -/
theorem chunk_document_paragraph_spec :
    (∀ text : String,
      chunk_document "paragraph" text
        = ((pySplitNN text).map pyStrip).filter (fun p => p != ""))
    ∧ chunk_document "paragraph" "A\n\nB\n\n\nC" = ["A", "B", "C"]
    ∧ chunk_document "paragraph" "" = [] := by
  refine ⟨?_, by decide, by decide⟩
  intro text
  have hmode : (pyLower "paragraph" == "paragraph") = true := by decide
  simp only [chunk_document, hmode, if_true]
  exact paragraph_chunks_eq text

/-- Claim C9: the Summarizer truncates the entire generation prompt (the
template with the document text embedded) to the input-token budget
before the external call — so the text passed to the call fits the
budget — and on any failure of the external call it returns the empty
summary `""` instead of propagating the error. -/
theorem generate_summary_spec (τ : Type) (enc : Encoding τ)
    (hinv : ∀ l, enc.encode (enc.decode l) = l)
    (context_max summary_max : Nat)
    (complete : String → Nat → ℚ → Except String String) (text : String) :
    count_tokens enc (truncate_text enc (summary_prompt text) context_max)
        ≤ context_max
    ∧ generate_summary enc context_max summary_max complete text
        = (match complete (truncate_text enc (summary_prompt text) context_max)
              summary_max (1/2) with
           | .ok response => pyStrip response
           | .error _ => "")
    ∧ (∀ err : String,
        generate_summary enc context_max summary_max
          (fun _ _ _ => Except.error err) text = "") := by
  refine ⟨count_tokens_truncate_le enc hinv (summary_prompt text) context_max,
    rfl, fun err => rfl⟩

/-- Witness for C9 at the character encoding, budget 100, and an external
call that always fails. -/
theorem generate_summary_spec_witness :
    count_tokens charEncoding
        (truncate_text charEncoding (summary_prompt "doc") 100) ≤ 100
    ∧ generate_summary charEncoding 100 300
        (fun _ _ _ => Except.error "timeout") "doc" = "" :=
  ⟨(generate_summary_spec Char charEncoding (fun _ => rfl) 100 300
      (fun _ _ _ => Except.error "timeout") "doc").1,
   (generate_summary_spec Char charEncoding (fun _ => rfl) 100 300
      (fun _ _ _ => Except.error "timeout") "doc").2.2 "timeout"⟩

/-- Claim C1: the batch assembled for one parent and its K children has
exactly K+1 entries — one parent entry followed by one entry per child —
every child entry's routing key is the parent's id, and, for the children
built by the ingestion pipeline, every child's join-field parent
reference is the minted parent id. -/
theorem index_writer_batch_spec (τ : Type) (enc : Encoding τ)
    (context_max summary_max : Nat)
    (complete : String → Nat → ℚ → Except String String)
    (embedder : String → Except String (List ℚ))
    (chunk_mode index_name parent_doc_id : String) (chunk_ids : Nat → String)
    (file_name file_path timestamp full_text : String) :
    (∀ (idx : String) (parent : ParentDoc) (children : List ChildDoc),
      (build_actions idx parent children).length = children.length + 1
      ∧ (build_actions idx parent children).head?
          = some { op_type := "index", index := idx, id := parent.doc_id
                   source := ActionSource.parentSrc parent, routing := none }
      ∧ ∀ a ∈ (build_actions idx parent children).tail,
          a.routing = some parent.doc_id)
    ∧ (let docs := process_pdf_file_docs enc context_max summary_max complete
          embedder chunk_mode parent_doc_id chunk_ids file_name file_path
          timestamp full_text
       docs.1.doc_id = parent_doc_id
       ∧ docs.2.length = (chunk_document chunk_mode full_text).length
       ∧ ∀ a ∈ (build_actions index_name docs.1 docs.2).tail,
           a.routing = some parent_doc_id
           ∧ ∃ c : ChildDoc, a.source = ActionSource.childSrc c
               ∧ c.my_join_field.parent = some parent_doc_id) := by
  constructor
  · intro idx parent children
    refine ⟨by simp [build_actions], by simp [build_actions], ?_⟩
    intro a ha
    simp only [build_actions, List.tail_cons, List.mem_map] at ha
    obtain ⟨c, _, rfl⟩ := ha
    rfl
  · refine ⟨rfl, ?_, ?_⟩
    · simp [process_pdf_file_docs, List.enum_length]
    · intro a ha
      simp only [process_pdf_file_docs, build_actions, List.tail_cons,
        List.map_map, List.mem_map] at ha
      obtain ⟨c, _, rfl⟩ := ha
      exact ⟨rfl, _, rfl, rfl⟩

/-- Witness for C1 at a concrete one-chunk document. -/
theorem index_writer_batch_spec_witness :
    let docs := process_pdf_file_docs charEncoding 2048 300
      (fun _ _ _ => Except.ok "a summary") (fun _ => Except.ok [1])
      "paragraph" "parent-1" (fun k => "chunk-" ++ toString k)
      "a.pdf" "/docs/a.pdf" "t0" "hello"
    (build_actions "documents" docs.1 docs.2).length = docs.2.length + 1
    ∧ ∀ a ∈ (build_actions "documents" docs.1 docs.2).tail,
        a.routing = some "parent-1"
        ∧ ∃ c : ChildDoc, a.source = ActionSource.childSrc c
            ∧ c.my_join_field.parent = some "parent-1" := by
  refine ⟨(index_writer_batch_spec Char charEncoding 2048 300
      (fun _ _ _ => Except.ok "a summary") (fun _ => Except.ok [1])
      "paragraph" "documents" "parent-1" (fun k => "chunk-" ++ toString k)
      "a.pdf" "/docs/a.pdf" "t0" "hello").1 "documents" _ _ |>.1, ?_⟩
  exact (index_writer_batch_spec Char charEncoding 2048 300
      (fun _ _ _ => Except.ok "a summary") (fun _ => Except.ok [1])
      "paragraph" "documents" "parent-1" (fun k => "chunk-" ++ toString k)
      "a.pdf" "/docs/a.pdf" "t0" "hello").2.2.2

/-- Claim C10: every document whose text yields an empty chunk sequence —
in any chunking mode — is not skipped: the pipeline still builds the
parent record under the minted id, produces zero child records, and the
assembled bulk batch is exactly the one parent-kind entry. -/
theorem empty_chunks_still_indexed_spec (τ : Type) (enc : Encoding τ)
    (context_max summary_max : Nat)
    (complete : String → Nat → ℚ → Except String String)
    (embedder : String → Except String (List ℚ))
    (chunk_mode index_name parent_doc_id : String) (chunk_ids : Nat → String)
    (file_name file_path timestamp full_text : String)
    (h : chunk_document chunk_mode full_text = []) :
    let docs := process_pdf_file_docs enc context_max summary_max complete
      embedder chunk_mode parent_doc_id chunk_ids file_name file_path
      timestamp full_text
    docs.2 = []
    ∧ docs.1.doc_id = parent_doc_id
    ∧ build_actions index_name docs.1 docs.2
        = [{ op_type := "index", index := index_name, id := parent_doc_id
             source := ActionSource.parentSrc docs.1, routing := none }] := by
  refine ⟨?_, rfl, ?_⟩
  · simp [process_pdf_file_docs, h]
  · simp [process_pdf_file_docs, build_actions, h]

/-- Witness for C10: a whitespace-only paragraph-mode document chunks to
nothing, yet the pipeline still yields zero children and the single
parent entry under the minted id. -/
theorem empty_chunks_still_indexed_witness :
    let docs := process_pdf_file_docs charEncoding 2048 300
      (fun _ _ _ => Except.ok "s") (fun _ => Except.ok [1])
      "paragraph" "parent-1" (fun _ => "chunk-1") "a.pdf" "/docs/a.pdf" "t0"
      "\n\n "
    docs.2 = []
    ∧ docs.1.doc_id = "parent-1"
    ∧ build_actions "documents" docs.1 docs.2
        = [{ op_type := "index", index := "documents", id := "parent-1"
             source := ActionSource.parentSrc docs.1, routing := none }] :=
  empty_chunks_still_indexed_spec Char charEncoding 2048 300
    (fun _ _ _ => Except.ok "s") (fun _ => Except.ok [1])
    "paragraph" "documents" "parent-1" (fun _ => "chunk-1")
    "a.pdf" "/docs/a.pdf" "t0" "\n\n " (by decide)

/-- Claim C5: a failure of the query-embedding step aborts `handle_query`
with that failure surfaced to the caller; the result is the propagated
error for every possible search backend, i.e. the search is never
consulted and no lexical-only result is returned. -/
theorem handle_query_embed_failure_spec
    (embed : String → Except String (List ℚ)) (query_text e : String)
    (h : embed query_text = Except.error e) :
    ∀ search : HasChildQuery → Except String SearchResponse,
      handle_query embed search query_text = Except.error e := by
  intro search
  unfold handle_query
  rw [h]

/-- Witness for C5: a concretely failing embedder propagates its error
unchanged, under a search backend that would happily return results. -/
theorem handle_query_embed_failure_witness :
    handle_query (fun _ => Except.error "embedding failed")
      (fun _ => Except.ok { hits := [] }) "what is MCP"
      = Except.error "embedding failed" :=
  handle_query_embed_failure_spec (fun _ => Except.error "embedding failed")
    "what is MCP" "embedding failed" rfl (fun _ => Except.ok { hits := [] })

/-- Claim C2 (evidence of the code's divergence): a one-chunk document
whose embedding call fails produces a child record carrying the empty
vector `[]`, and that record IS included in the assembled bulk batch —
the pipeline writes the failed embedding as if it were valid. -/
theorem embedding_failure_written_to_batch :
    build_actions "documents"
      (process_pdf_file_docs charEncoding 2048 300
        (fun _ _ _ => Except.error "api error")
        (fun _ => Except.error "rate limit")
        "paragraph" "parent-1" (fun _ => "chunk-1")
        "a.pdf" "/docs/a.pdf" "t0" "hello").1
      (process_pdf_file_docs charEncoding 2048 300
        (fun _ _ _ => Except.error "api error")
        (fun _ => Except.error "rate limit")
        "paragraph" "parent-1" (fun _ => "chunk-1")
        "a.pdf" "/docs/a.pdf" "t0" "hello").2
    = [{ op_type := "index", index := "documents", id := "parent-1"
         source := ActionSource.parentSrc
           { doc_id := "parent-1", file_name := "a.pdf"
             file_path := "/docs/a.pdf", summary := "", timestamp := "t0"
             my_join_field := "document" }
         routing := none },
       { op_type := "index", index := "documents", id := "chunk-1"
         source := ActionSource.childSrc
           { chunk_id := "chunk-1", chunk_text := "hello"
             embedding := []
             my_join_field := { name := "chunk", parent := some "parent-1" } }
         routing := some "parent-1" }] := by
  decide

/-- Claim C4 (evidence of the code's divergence): the Index Writer's
return value on a failing bulk submission is identical to its return
value on a succeeding one — the Python function returns `None` on every
path and catches the bulk exception, so no success/failure result and no
per-entry failure report ever reaches the caller. -/
theorem bulk_failure_not_reported (index_name : String) (parent : ParentDoc)
    (children : List ChildDoc) (e : String) :
    index_documents_to_opensearch index_name (fun _ => Except.error e)
        parent children
      = index_documents_to_opensearch index_name (fun _ => Except.ok ())
        parent children := by
  rfl

/-- Claim C3: the hybrid retrieval request is scoped to `"chunk"`-kind
child records and aggregates child scores by `"max"`, each matching child
scored by the script `cosineSimilarity + 1.0` over the lexical
`chunk_text` match; under the index service's has_child/max semantics a
parent's returned score is the maximum of its matching children's scores
(so children scoring 0.2, 0.9, 0.5 yield 0.9) and a parent with no
matching children is absent from the results. -/
theorem hybrid_query_aggregation_spec :
    (∀ (query_text : String) (query_vector : List ℚ),
      build_opensearch_query query_text query_vector
        = { child_type := "chunk"
            clause :=
              { match_field := "chunk_text", match_text := query_text
                script_source :=
                  "cosineSimilarity(params.query_vector, \x27embedding\x27) + 1.0"
                query_vector := query_vector }
            score_mode := "max" })
    ∧ (∀ (sim : List ℚ → List ℚ → ℚ) (lex : String → String → Bool)
        (q : HasChildQuery) (index : List (ParentDoc × List ChildDoc))
        (p : ParentDoc) (score : ℚ),
        (p, score) ∈ eval_has_child_max sim lex q index →
          ∃ children, (p, children) ∈ index ∧
            score ∈ (children.filter
                (fun c => lex q.clause.match_text c.chunk_text)).map
                (fun c => sim q.clause.query_vector c.embedding + 1)
            ∧ ∀ x ∈ (children.filter
                (fun c => lex q.clause.match_text c.chunk_text)).map
                (fun c => sim q.clause.query_vector c.embedding + 1),
                x ≤ score)
    ∧ (∀ (sim : List ℚ → List ℚ → ℚ) (lex : String → String → Bool)
        (q : HasChildQuery) (parent : ParentDoc) (children : List ChildDoc),
        children.filter (fun c => lex q.clause.match_text c.chunk_text) = [] →
          eval_has_child_max sim lex q [(parent, children)] = [])
    ∧ eval_has_child_max exSim exLex (build_opensearch_query "mcp" [7])
        [(exParent1, [exChild1, exChild2, exChild3]), (exParent2, [exChild4])]
      = [(exParent1, 9/10)] := by
  refine ⟨fun _ _ => rfl, ?_, ?_, ?_⟩
  · intro sim lex q index p score hmem
    unfold eval_has_child_max at hmem
    obtain ⟨pc, hin, hf⟩ := List.mem_filterMap.1 hmem
    obtain ⟨p', children⟩ := pc
    dsimp only at hf
    split at hf
    · exact absurd hf (by simp)
    · rename_i s rest hseq
      simp only [Option.some.injEq, Prod.mk.injEq] at hf
      obtain ⟨rfl, rfl⟩ := hf
      refine ⟨children, hin, ?_, ?_⟩
      · rw [hseq]
        exact foldl_max_mem s rest
      · rw [hseq]
        exact le_foldl_max s rest
  · intro sim lex q parent children h
    unfold eval_has_child_max
    simp [h]
  · unfold eval_has_child_max
    simp only [List.filterMap_cons, List.filterMap_nil]
    have h1 : exLex (build_opensearch_query "mcp" [7]).clause.match_text
        exChild1.chunk_text = true := by decide
    have h2 : exLex (build_opensearch_query "mcp" [7]).clause.match_text
        exChild2.chunk_text = true := by decide
    have h3 : exLex (build_opensearch_query "mcp" [7]).clause.match_text
        exChild3.chunk_text = true := by decide
    have h4 : exLex (build_opensearch_query "mcp" [7]).clause.match_text
        exChild4.chunk_text = false := by decide
    simp only [List.filter_cons, List.filter_nil, h1, h2, h3, h4, if_true,
      if_false, List.map_cons, List.map_nil, List.foldl_cons, List.foldl_nil]
    norm_num [exSim, exChild1, exChild2, exChild3, max_def]

/-- Witness for C3: a parent whose only child fails the lexical match is
absent from the evaluated results. -/
theorem hybrid_query_aggregation_spec_witness :
    eval_has_child_max exSim exLex (build_opensearch_query "mcp" [7])
      [(exParent2, [exChild4])] = [] :=
  hybrid_query_aggregation_spec.2.2.1 exSim exLex
    (build_opensearch_query "mcp" [7]) exParent2 [exChild4] (by decide)

/-- Claim C8: windowed (semantic-mode) chunking cuts fixed-size windows
with fixed overlap: chunk `k` is the `size`-wide slice starting at
`k * (size - overlap)` — so each subsequent chunk starts exactly
`size - overlap` characters after the previous one — every character
position of the input is covered by a chunk, semantic mode wires the
splitter up at window 1000 / overlap 200, and window 10 / overlap 3 over
a 25-character string yields starts 0, 7, 14, 21. -/
theorem windowed_chunking_spec :
    (∀ (size overlap : Nat) (l : List Char), overlap < size →
      (∀ k : Nat, k * (size - overlap) < l.length →
        (windowChunk size overlap l)[k]?
          = some ((l.drop (k * (size - overlap))).take size))
      ∧ (∀ i : Nat, i < l.length →
        ((windowChunk size overlap l)[i / (size - overlap)]?).bind
            (fun w => w[i % (size - overlap)]?)
          = l[i]?))
    ∧ (∀ text : String, chunk_document "semantic" text
        = (windowChunk 1000 200 text.data).map String.mk)
    ∧ windowChunk 10 3 "abcdefghijklmnopqrstuvwxy".data
        = ["abcdefghij".data, "hijklmnopq".data, "opqrstuvwx".data,
           "vwxy".data] := by
  refine ⟨?_, ?_, by decide⟩
  · intro size overlap l hov
    have hs : 0 < size - overlap := by omega
    have hshape : ∀ k : Nat, k * (size - overlap) < l.length →
        (windowChunk size overlap l)[k]?
          = some ((l.drop (k * (size - overlap))).take size) := by
      intro k hk
      simp only [windowChunk]
      rw [List.getElem?_map, List.getElem?_range (lt_numWindows hs hk)]
      rfl
    refine ⟨hshape, ?_⟩
    intro i hi
    have hdiv : (i / (size - overlap)) * (size - overlap) ≤ i :=
      Nat.div_mul_le_self i (size - overlap)
    rw [hshape (i / (size - overlap)) (lt_of_le_of_lt hdiv hi)]
    have hmod : i % (size - overlap) < size - overlap :=
      Nat.mod_lt _ hs
    simp only [Option.some_bind]
    rw [List.getElem?_take_of_lt (lt_of_lt_of_le hmod (Nat.sub_le size overlap)),
      List.getElem?_drop]
    congr 1
    rw [Nat.mul_comm]
    exact Nat.div_add_mod i (size - overlap)
  · intro text
    have h1 : (pyLower "semantic" == "paragraph") = false := by decide
    have h2 : (pyLower "semantic" == "semantic") = true := by decide
    simp [chunk_document, h1, h2]

/-- Witness for C8 at window 10, overlap 3, over the 25-character example:
the second chunk is the slice starting at position 7, and the character
at position 12 is covered by chunk 12 / 7 = 1 at offset 12 % 7 = 5. -/
theorem windowed_chunking_spec_witness :
    (windowChunk 10 3 "abcdefghijklmnopqrstuvwxy".data)[1]?
      = some (("abcdefghijklmnopqrstuvwxy".data.drop (1 * (10 - 3))).take 10)
    ∧ ((windowChunk 10 3 "abcdefghijklmnopqrstuvwxy".data)[12 / (10 - 3)]?).bind
        (fun w => w[12 % (10 - 3)]?)
      = "abcdefghijklmnopqrstuvwxy".data[12]? :=
  ⟨((windowed_chunking_spec.1 10 3 "abcdefghijklmnopqrstuvwxy".data
      (by decide)).1 1 (by decide)),
   ((windowed_chunking_spec.1 10 3 "abcdefghijklmnopqrstuvwxy".data
      (by decide)).2 12 (by decide))⟩
